import Mathlib

set_option maxRecDepth 100000

/-!
Verification of the SHA-256 hash-preimage escrow program
(`sha_256/sol-program/src/lib.rs`).

The program is shallowly embedded: bytes are `Nat` values (< 256 in any
real buffer), 64-bit quantities are `Nat` with explicit wrap-around where
the Rust code performs `u64` arithmetic, accounts are records of their
observable fields, and fallible operations return an `Outcome` that also
records Rust panics (`unwrap` on invalid UTF-8, out-of-bounds slicing).

External collaborators (the Solana runtime's `find_program_address`,
`Rent`, `Clock`, the system program CPIs and the Bonsol oracle adapter
`handle_callback` / `execute_v1`) are not part of this repository; they
are passed in as an `Externals` record.  The system-program CPIs
(`create_account`, `transfer`) are modelled by their documented lamport
effect (checked moves that fail on insufficient funds); the Bonsol
`execute_v1` CPI is modelled as succeeding or failing without touching
the accounts owned by this program.
-/

/-- Subset of `solana_program::program_error::ProgramError` used by the
program, plus `External` standing for an error propagated out of an
external CPI (system program or Bonsol). -/
inductive ProgramError where
  | InvalidInstructionData
  | AccountDataTooSmall
  | MissingRequiredSignature
  | InvalidSeeds
  | NotEnoughAccountKeys
  | Custom : Nat → ProgramError
  | External
deriving DecidableEq, Repr

/-- The observable fields of `solana_program::account_info::AccountInfo`:
the address (32 bytes), the lamport balance, the data buffer and the two
flags the program reads. -/
structure AccountInfo where
  key : List Nat
  lamports : Nat
  data : List Nat
  is_signer : Bool
  is_writable : Bool
deriving DecidableEq, Repr

/-- Result of one instruction call.  `ok`/`err` carry the account list as
it stands when the call returns (the code never mutates state before an
error return except lamport moves right before a possible `pack` error,
which the relevant `err` site reflects).  `panicked` models a Rust panic
(process abort), which carries no result at all. -/
inductive Outcome where
  | ok : List AccountInfo → Outcome
  | err : ProgramError → List AccountInfo → Outcome
  | panicked : Outcome
deriving DecidableEq, Repr

/-- Rust slice indexing `l[a..b]`. -/
def listSlice (l : List Nat) (a b : Nat) : List Nat :=
  (l.drop a).take (b - a)

/-- Rust `dst[start..start+src.len()].copy_from_slice(&src)`: overwrite the
bytes of `dst` starting at `start` with `src`, keeping the rest. -/
def setRange (dst : List Nat) (start : Nat) (src : List Nat) : List Nat :=
  dst.take start ++ src ++ dst.drop (start + src.length)

/-- Rust `u64::to_le_bytes`. -/
def u64ToLe (n : Nat) : List Nat :=
  [n % 2^8, n / 2^8 % 2^8, n / 2^16 % 2^8, n / 2^24 % 2^8,
   n / 2^32 % 2^8, n / 2^40 % 2^8, n / 2^48 % 2^8, n / 2^56 % 2^8]

/-- Rust `u64::from_le_bytes` applied to the 8 bytes `l[0] .. l[7]`. -/
def u64FromLe (l : List Nat) : Nat :=
  l.getD 0 0 + 2^8 * l.getD 1 0 + 2^16 * l.getD 2 0 + 2^24 * l.getD 3 0 +
  2^32 * l.getD 4 0 + 2^40 * l.getD 5 0 + 2^48 * l.getD 6 0 + 2^56 * l.getD 7 0

/-- Rust `u16::from_le_bytes` applied to the bytes `l[0]`, `l[1]`. -/
def u16FromLe (l : List Nat) : Nat :=
  l.getD 0 0 + 2^8 * l.getD 1 0

/-- Rust `u16::to_le_bytes`. -/
def u16ToLe (n : Nat) : List Nat :=
  [n % 2^8, n / 2^8 % 2^8]

/-- Wrapping `u64` addition (`+` on `u64` compiled without checks). -/
def wadd64 (a b : Nat) : Nat := (a + b) % 2^64

/-- Wrapping `u64` subtraction. -/
def wsub64 (a b : Nat) : Nat := (a % 2^64 + 2^64 - b % 2^64) % 2^64

/-- `EscrowAccount` from the program: seeds, escrowed amount, the 64
hex-text bytes of the committed SHA-256 digest, the claimed flag, the
optional receiver and the initializer. -/
structure EscrowAccount where
  seeds : List Nat
  amount_lamports : Nat
  hash : List Nat
  is_claimed : Bool
  receiver : Option (List Nat)
  initializer : List Nat
deriving DecidableEq, Repr

/-- `EscrowAccount::SIZE = 32 + 8 + 64 + 1 + 1 + 32 + 32`. -/
def EscrowAccount.SIZE : Nat := 32 + 8 + 64 + 1 + 1 + 32 + 32

/-- `EscrowAccount::pack`: positional fixed-width encoding into `dst`,
mirroring each `copy_from_slice` / byte store of the source.  Fails with
`AccountDataTooSmall` when `dst` is shorter than `SIZE`. -/
def EscrowAccount.pack (e : EscrowAccount) (dst : List Nat) :
    Except ProgramError (List Nat) :=
  if dst.length < EscrowAccount.SIZE then .error .AccountDataTooSmall else
  let d0 := setRange dst 0 e.seeds
  let d1 := setRange d0 32 (u64ToLe e.amount_lamports)
  let d2 := setRange d1 40 e.hash
  let d3 := setRange d2 104 [if e.is_claimed then 1 else 0]
  let d4 := match e.receiver with
    | some r => setRange (setRange d3 105 [1]) 106 r
    | none => setRange (setRange d3 105 [0]) 106 (List.replicate 32 0)
  let d5 := setRange d4 138 e.initializer
  .ok d5

/-- `EscrowAccount::unpack`: positional fixed-width decoding, failing with
`AccountDataTooSmall` when `src` is shorter than `SIZE`. -/
def EscrowAccount.unpack (src : List Nat) :
    Except ProgramError EscrowAccount :=
  if src.length < EscrowAccount.SIZE then .error .AccountDataTooSmall else
  .ok { seeds := src.take 32
        amount_lamports := u64FromLe (listSlice src 32 40)
        hash := listSlice src 40 104
        is_claimed := src.getD 104 0 != 0
        receiver := if src.getD 105 0 != 0 then some (listSlice src 106 138) else none
        initializer := listSlice src 138 170 }

/-- `ExecutionTracker`: the 32-byte execution-account address recorded by
a Claim call. -/
structure ExecutionTracker where
  execution_account : List Nat
deriving DecidableEq, Repr

/-- `ExecutionTracker::SIZE = 32`. -/
def ExecutionTracker.SIZE : Nat := 32

/-- `ExecutionTracker::pack`. -/
def ExecutionTracker.pack (t : ExecutionTracker) (dst : List Nat) :
    Except ProgramError (List Nat) :=
  if dst.length < ExecutionTracker.SIZE then .error .AccountDataTooSmall else
  .ok (setRange dst 0 t.execution_account)

/-- `ExecutionTracker::unpack`. -/
def ExecutionTracker.unpack (src : List Nat) :
    Except ProgramError ExecutionTracker :=
  if src.length < ExecutionTracker.SIZE then .error .AccountDataTooSmall else
  .ok { execution_account := src.take 32 }

/-- One step of UTF-8 decoding, with fuel bounding the recursion depth
(`fuel ≥ l.length` always suffices).  Implements exactly the acceptance
rules of `std::str::from_utf8`: ASCII, well-ranged continuation bytes,
no overlong forms, no surrogates, nothing above `U+10FFFF`. -/
def utf8DecodeFuel : Nat → List Nat → Option (List Nat)
  | _, [] => some []
  | 0, _ :: _ => none
  | fuel + 1, b :: rest =>
    if b < 0x80 then
      (utf8DecodeFuel fuel rest).map (fun cps => b :: cps)
    else if b < 0xC2 then none
    else if b < 0xE0 then
      match rest with
      | b2 :: rest2 =>
        if 0x80 ≤ b2 ∧ b2 < 0xC0 then
          (utf8DecodeFuel fuel rest2).map
            (fun cps => ((b - 0xC0) * 0x40 + (b2 - 0x80)) :: cps)
        else none
      | [] => none
    else if b < 0xF0 then
      match rest with
      | b2 :: b3 :: rest3 =>
        let lo2 := if b = 0xE0 then 0xA0 else 0x80
        let hi2 := if b = 0xED then 0xA0 else 0xC0
        if (lo2 ≤ b2 ∧ b2 < hi2) ∧ (0x80 ≤ b3 ∧ b3 < 0xC0) then
          (utf8DecodeFuel fuel rest3).map
            (fun cps => ((b - 0xE0) * 0x1000 + (b2 - 0x80) * 0x40 + (b3 - 0x80)) :: cps)
        else none
      | _ => none
    else if b < 0xF5 then
      match rest with
      | b2 :: b3 :: b4 :: rest4 =>
        let lo2 := if b = 0xF0 then 0x90 else 0x80
        let hi2 := if b = 0xF4 then 0x90 else 0xC0
        if (lo2 ≤ b2 ∧ b2 < hi2) ∧ (0x80 ≤ b3 ∧ b3 < 0xC0) ∧ (0x80 ≤ b4 ∧ b4 < 0xC0) then
          (utf8DecodeFuel fuel rest4).map
            (fun cps => ((b - 0xF0) * 0x40000 + (b2 - 0x80) * 0x1000 +
                         (b3 - 0x80) * 0x40 + (b4 - 0x80)) :: cps)
        else none
      | _ => none
    else none

/-- Decode a byte sequence as UTF-8 into its list of code points;
`none` models `std::str::from_utf8` returning `Err`. -/
def utf8Decode (l : List Nat) : Option (List Nat) :=
  utf8DecodeFuel l.length l

/-- Whether the byte sequence is valid UTF-8. -/
def utf8Valid (l : List Nat) : Bool :=
  (utf8Decode l).isSome

/-- Rust `char::is_whitespace` (the Unicode `White_Space` property) on a
code point. -/
def isRustWhitespace (c : Nat) : Bool :=
  c = 0x09 ∨ c = 0x0A ∨ c = 0x0B ∨ c = 0x0C ∨ c = 0x0D ∨ c = 0x20 ∨
  c = 0x85 ∨ c = 0xA0 ∨ c = 0x1680 ∨ (0x2000 ≤ c ∧ c ≤ 0x200A) ∨
  c = 0x2028 ∨ c = 0x2029 ∨ c = 0x202F ∨ c = 0x205F ∨ c = 0x3000

/-- Rust `str::trim` at the level of decoded code points: drop
`White_Space` characters from both ends. -/
def trimCps (l : List Nat) : List Nat :=
  ((l.dropWhile isRustWhitespace).reverse.dropWhile isRustWhitespace).reverse

/-- The parsed result of the Bonsol oracle callback
(`bonsol_interface::callback::BonsolCallback`), reduced to the only field
the program reads. -/
structure BonsolCallback where
  committed_outputs : List Nat
deriving DecidableEq, Repr

/-- The external collaborators of the program, passed in rather than
modelled: PDA derivation, rent sysvar, clock sysvar, the Bonsol request
builder / CPI, and the Bonsol callback authenticator.
`findPda pid seed` models `Pubkey::find_program_address(&[seed], pid)`
returning `(address, bump)`; `handleCb execAcct accounts data` models
`bonsol_interface::callback::handle_callback(SHA256_IMAGE_ID, execAcct,
accounts, data)`. -/
structure Externals where
  findPda : List Nat → List Nat → List Nat × Nat
  rentMin : Nat → Nat
  clockSlot : Nat
  executeOk : Bool
  bonsolOk : Bool
  handleCb : List Nat → List AccountInfo → List Nat → Except Unit BonsolCallback

/-- Zero-padded 32-byte seed image: the source fills a `[0u8; 32]` array
with the first `min(seed.len(), 32)` seed bytes. -/
def seedPad (seed : List Nat) : List Nat :=
  seed.take 32 ++ List.replicate (32 - seed.length) 0

/-- Account-handling part of `initialize_escrow` (everything after
payload parsing): signer check, escrow PDA check, create-or-top-up, and
the unconditional fresh-record write. -/
def initializeBody (ext : Externals) (program_id : List Nat)
    (accounts : List AccountInfo) (seed hash_str : List Nat)
    (amount_lamports : Nat) : Outcome :=
  match accounts with
  | initializer :: escrow_account :: system_program :: rest =>
    if ¬ initializer.is_signer then .err .MissingRequiredSignature accounts else
    if escrow_account.key ≠ (ext.findPda program_id seed).1 then .err .InvalidSeeds accounts else
    let escrow : EscrowAccount :=
      { seeds := seedPad seed, amount_lamports := amount_lamports, hash := hash_str
        is_claimed := false, receiver := none, initializer := initializer.key }
    if escrow_account.lamports = 0 then
      -- create_account CPI: fund with rent-exempt minimum + amount,
      -- allocate SIZE + 100 zeroed bytes, debit the initializer
      let space := EscrowAccount.SIZE + 100
      let total_lamports := wadd64 (ext.rentMin space) amount_lamports
      if initializer.lamports < total_lamports then .err .External accounts else
      let initializer' := { initializer with lamports := initializer.lamports - total_lamports }
      let escrow_account' :=
        { escrow_account with lamports := total_lamports, data := List.replicate space 0 }
      match escrow.pack escrow_account'.data with
      | .error e => .err e (initializer' :: escrow_account' :: system_program :: rest)
      | .ok d' =>
        .ok (initializer' :: { escrow_account' with data := d' } :: system_program :: rest)
    else
      -- transfer CPI: move `amount_lamports` from the initializer
      if initializer.lamports < amount_lamports then .err .External accounts else
      let initializer' := { initializer with lamports := initializer.lamports - amount_lamports }
      let escrow_account' :=
        { escrow_account with lamports := escrow_account.lamports + amount_lamports }
      match escrow.pack escrow_account'.data with
      | .error e => .err e (initializer' :: escrow_account' :: system_program :: rest)
      | .ok d' =>
        .ok (initializer' :: { escrow_account' with data := d' } :: system_program :: rest)
  | _ => .err .NotEnoughAccountKeys accounts

/-- Instruction 0, `initialize_escrow`: parse
`seed_len, seed, hash_len (must be 64), hash, amount_lamports` and hand
over to `initializeBody`.  The two system-program CPIs are modelled by
their documented lamport effect, failing (`External`) on insufficient
payer funds. -/
def initialize_escrow (ext : Externals) (program_id : List Nat)
    (accounts : List AccountInfo) (data : List Nat) : Outcome :=
  if data.length < 2 then .err .InvalidInstructionData accounts else
  let seed_len := data.getD 0 0
  if data.length < 1 + seed_len + 1 then .err .InvalidInstructionData accounts else
  let seed := listSlice data 1 (1 + seed_len)
  let hash_len := data.getD (1 + seed_len) 0
  if data.length < 1 + seed_len + 1 + hash_len + 8 then .err .InvalidInstructionData accounts else
  let hash_str := listSlice data (2 + seed_len) (2 + seed_len + hash_len)
  let amount_lamports :=
    u64FromLe (listSlice data (2 + seed_len + hash_len) (2 + seed_len + hash_len + 8))
  if hash_len ≠ 64 then .err .InvalidInstructionData accounts else
  initializeBody ext program_id accounts seed hash_str amount_lamports

/-- Instruction 1, `claim_escrow`: parse
`execution_id(16), bump(1), tip(8), expiry_offset(8), seed_len(1), seed,
preimage_len(2), preimage`; the preimage is re-read as a string with
`.unwrap()`, which panics on invalid UTF-8.  Then check the payer signed,
the escrow account is the PDA of `seed`, the record is not claimed and
the requester account is the PDA of `execution_id`; create the requester
account when empty; build and submit the Bonsol request; finally record
the execution account address in the requester data.  The payload `bump`
byte is parsed but never compared to anything.
`claimBody` is the account-handling part, after payload parsing. -/
def claimBody (ext : Externals) (program_id : List Nat)
    (accounts : List AccountInfo) (execution_id seed : List Nat)
    (expiry_offset : Nat) : Outcome :=
  match accounts with
  | payer :: receiver :: escrow_account :: requester :: execution_account ::
      system_program :: bonsol_program :: image_id_account :: program_id_account :: rest =>
    if ¬ payer.is_signer then .err .MissingRequiredSignature accounts else
    if escrow_account.key ≠ (ext.findPda program_id seed).1 then .err .InvalidSeeds accounts else
    match EscrowAccount.unpack escrow_account.data with
    | .error e => .err e accounts
    | .ok escrow =>
      if escrow.is_claimed then .err (.Custom 1) accounts else
      if requester.key ≠ (ext.findPda program_id execution_id).1 then
        .err .InvalidSeeds accounts
      else
        -- create the requester account when it has no lamports
        -- (system-program create_account CPI, modelled by its lamport
        -- and data effect; bump, tip and the expiration are consumed
        -- only by the external Bonsol request)
        let created :=
          if requester.lamports = 0 then
            let space := ExecutionTracker.SIZE + 100
            let lam := ext.rentMin space
            if payer.lamports < lam then none
            else some ({ payer with lamports := payer.lamports - lam },
                       { requester with lamports := lam, data := List.replicate space 0 })
          else some (payer, requester)
        match created with
        | none => .err .External accounts
        | some (payer', requester') =>
          let expiration := min (ext.clockSlot + expiry_offset) (2^64 - 1)
          let accounts' := payer' :: receiver :: escrow_account :: requester' ::
            execution_account :: system_program :: bonsol_program ::
            image_id_account :: program_id_account :: rest
          -- execute_v1(..., tip, expiration, ...) builder, then the CPI
          if ¬ ext.executeOk then
            .err .InvalidInstructionData accounts'
          else if ¬ ext.bonsolOk then .err .External accounts'
          else
            match ExecutionTracker.pack ⟨execution_account.key⟩ requester'.data with
            | .error e => .err e accounts'
            | .ok d' =>
              .ok (payer' :: receiver :: escrow_account :: { requester' with data := d' } ::
                execution_account :: system_program :: bonsol_program ::
                image_id_account :: program_id_account :: rest)
  | _ => .err .NotEnoughAccountKeys accounts

/-- Payload parsing of `claim_escrow`; hands over to `claimBody`. -/
def claim_escrow (ext : Externals) (program_id : List Nat)
    (accounts : List AccountInfo) (data : List Nat) : Outcome :=
  if data.length < 35 then .err .InvalidInstructionData accounts else
  if ¬ utf8Valid (data.take 16) then .err .InvalidInstructionData accounts else
  let execution_id := data.take 16
  let bump := data.getD 16 0
  let tip := u64FromLe (listSlice data 17 25)
  let expiry_offset := u64FromLe (listSlice data 25 33)
  let seed_len := data.getD 33 0
  if data.length < 34 + seed_len + 2 then .err .InvalidInstructionData accounts else
  let seed := listSlice data 34 (34 + seed_len)
  let preimage_len := u16FromLe (listSlice data (34 + seed_len) (36 + seed_len))
  if data.length < 36 + seed_len + preimage_len then .err .InvalidInstructionData accounts else
  let preimage := listSlice data (36 + seed_len) (36 + seed_len + preimage_len)
  -- `std::str::from_utf8(&preimage[..]).unwrap()` : panics on invalid UTF-8
  if ¬ utf8Valid preimage then .panicked else
  claimBody ext program_id accounts execution_id seed expiry_offset

/-- Instruction 2, `handle_claim_callback`: check at least 4 accounts and
that escrow and receiver are writable; read the execution account address
from the requester data (`&requester_data[0..32]` — panics when the
buffer holds fewer than 32 bytes); authenticate the callback through the
Bonsol adapter; require a non-empty committed output that decodes as
UTF-8 text; load the escrow record, reject when already claimed; decode
the stored digest text; compare the two texts after `trim`; on match move
`amount_lamports` from the escrow balance to the receiver balance, set
`is_claimed = true` and `receiver`, and re-pack the record; on mismatch
fail with `Custom 2`. -/
def handle_claim_callback (ext : Externals) (_program_id : List Nat)
    (accounts : List AccountInfo) (data : List Nat) : Outcome :=
  match accounts with
  | a0 :: requester :: escrow_account :: receiver :: rest =>
    if ¬ escrow_account.is_writable ∨ ¬ receiver.is_writable then
      .err .InvalidInstructionData accounts
    else if requester.data.length < 32 then .panicked
    else
      let execution_account := requester.data.take 32
      match ext.handleCb execution_account accounts data with
      | .error _ => .err .InvalidInstructionData accounts
      | .ok callback_output =>
        if callback_output.committed_outputs = [] then .err .InvalidInstructionData accounts
        else
          match utf8Decode callback_output.committed_outputs with
          | none => .err .InvalidInstructionData accounts
          | some computed_hash_str =>
            match EscrowAccount.unpack escrow_account.data with
            | .error e => .err e accounts
            | .ok escrow =>
              if escrow.is_claimed then .err (.Custom 1) accounts
              else
                match utf8Decode escrow.hash with
                | none => .err .InvalidInstructionData accounts
                | some stored_hash_str =>
                  if trimCps computed_hash_str = trimCps stored_hash_str then
                    let transfer_lamports := escrow.amount_lamports
                    let escrow_account' := { escrow_account with
                      lamports := wsub64 escrow_account.lamports transfer_lamports }
                    let receiver' := { receiver with
                      lamports := wadd64 receiver.lamports transfer_lamports }
                    let escrow' := { escrow with is_claimed := true, receiver := some receiver.key }
                    match escrow'.pack escrow_account'.data with
                    | .error e => .err e (a0 :: requester :: escrow_account' :: receiver' :: rest)
                    | .ok d' =>
                      .ok (a0 :: requester :: { escrow_account' with data := d' } :: receiver' :: rest)
                  else .err (.Custom 2) accounts
  | _ => .err .NotEnoughAccountKeys accounts

/-- `process_instruction`: single-byte opcode dispatch; empty payload or
an unknown opcode fails with `InvalidInstructionData`. -/
def process_instruction (ext : Externals) (program_id : List Nat)
    (accounts : List AccountInfo) (instruction_data : List Nat) : Outcome :=
  match instruction_data with
  | [] => .err .InvalidInstructionData accounts
  | instruction :: data =>
    if instruction = 0 then initialize_escrow ext program_id accounts data
    else if instruction = 1 then claim_escrow ext program_id accounts data
    else if instruction = 2 then handle_claim_callback ext program_id accounts data
    else .err .InvalidInstructionData accounts

/-- A well-formed Initialize payload:
`seed_len, seed, hash_len, hash, amount (LE)`. -/
def initPayload (seed hash : List Nat) (amount : Nat) : List Nat :=
  [seed.length] ++ (seed ++ ([hash.length] ++ (hash ++ u64ToLe amount)))

/-- A well-formed Claim payload: `execution_id(16), bump, tip(LE 8),
expiry_offset(LE 8), seed_len, seed, preimage_len(LE 2), preimage`. -/
def claimPayload (execId : List Nat) (bump tip expiry : Nat)
    (seed preimage : List Nat) : List Nat :=
  execId ++ ([bump] ++ (u64ToLe tip ++ (u64ToLe expiry ++
    ([seed.length] ++ (seed ++ (u16ToLe preimage.length ++ preimage))))))

/-! ### Basic facts about the byte-level helpers -/

theorem u64ToLe_length (n : Nat) : (u64ToLe n).length = 8 := rfl

theorem u64FromLe_u64ToLe (n : Nat) (h : n < 2^64) : u64FromLe (u64ToLe n) = n := by
  simp only [u64ToLe, u64FromLe, List.getD_cons_zero, List.getD_cons_succ]
  omega

theorem wsub64_eq (a b : Nat) (h1 : b ≤ a) (h2 : a < 2^64) : wsub64 a b = a - b := by
  unfold wsub64; omega

theorem wadd64_eq (a b : Nat) (h : a + b < 2^64) : wadd64 a b = a + b := by
  unfold wadd64; omega

theorem setRange_shift (pre l src : List Nat) (k : Nat) (h : pre.length = k) :
    setRange (pre ++ l) k src = pre ++ (src ++ l.drop src.length) := by
  unfold setRange
  rw [List.take_left' h, ← List.drop_drop, List.drop_left' h, List.append_assoc]

theorem setRange_shift_drop (X d src : List Nat) (k : Nat) (h : X.length = k) :
    setRange (X ++ d.drop k) k src = X ++ (src ++ d.drop (k + src.length)) := by
  rw [setRange_shift X _ src k h, List.drop_drop]

theorem listSlice_shift (pre l : List Nat) (a b : Nat) (h : pre.length ≤ a) :
    listSlice (pre ++ l) a b = listSlice l (a - pre.length) (b - pre.length) := by
  unfold listSlice
  rw [show a = pre.length + (a - pre.length) from by omega, ← List.drop_drop,
    List.drop_left' rfl,
    show b - (pre.length + (a - pre.length)) = b - pre.length - (a - pre.length) from by omega,
    Nat.add_sub_cancel_left]

theorem listSlice_take (l : List Nat) (b : Nat) : listSlice l 0 b = l.take b := by
  simp [listSlice]

theorem getD_shift (pre l : List Nat) (k d : Nat) (h : pre.length ≤ k) :
    (pre ++ l).getD k d = l.getD (k - pre.length) d := by
  simp [List.getD_eq_getElem?_getD, List.getElem?_append_right h]

theorem listSlice_length (l : List Nat) (a b : Nat) :
    (listSlice l a b).length = min (b - a) (l.length - a) := by
  simp [listSlice]

/-! ### The packed byte image of an escrow record -/

/-- The exact 170-byte image `EscrowAccount::pack` writes for a record
with well-formed field widths. -/
def packBytes (e : EscrowAccount) : List Nat :=
  e.seeds ++ u64ToLe e.amount_lamports ++ e.hash ++
  [if e.is_claimed then 1 else 0] ++
  (match e.receiver with
   | some r => 1 :: r
   | none => 0 :: List.replicate 32 0) ++ e.initializer

theorem packBytes_length (e : EscrowAccount)
    (hs : e.seeds.length = 32) (hh : e.hash.length = 64)
    (hr : ∀ r, e.receiver = some r → r.length = 32)
    (hi : e.initializer.length = 32) :
    (packBytes e).length = 170 := by
  cases hrec : e.receiver with
  | none => simp [packBytes, hrec, hs, hh, hi, u64ToLe_length]
  | some r => simp [packBytes, hrec, hs, hh, hi, u64ToLe_length, hr r hrec]

theorem pack_eq_packBytes (e : EscrowAccount) (dst : List Nat)
    (hs : e.seeds.length = 32) (hh : e.hash.length = 64)
    (hr : ∀ r, e.receiver = some r → r.length = 32)
    (hi : e.initializer.length = 32) (hd : 170 ≤ dst.length) :
    e.pack dst = .ok (packBytes e ++ dst.drop 170) := by
  have e0 : setRange dst 0 e.seeds = e.seeds ++ dst.drop 32 := by
    have h := setRange_shift_drop [] dst e.seeds 0 rfl
    simpa [hs] using h
  have e1 : setRange (e.seeds ++ dst.drop 32) 32 (u64ToLe e.amount_lamports)
      = e.seeds ++ (u64ToLe e.amount_lamports ++ dst.drop 40) := by
    have h := setRange_shift_drop e.seeds dst (u64ToLe e.amount_lamports) 32 hs
    simpa [u64ToLe_length] using h
  have e2 : setRange (e.seeds ++ (u64ToLe e.amount_lamports ++ dst.drop 40)) 40 e.hash
      = e.seeds ++ (u64ToLe e.amount_lamports ++ (e.hash ++ dst.drop 104)) := by
    have h := setRange_shift_drop (e.seeds ++ u64ToLe e.amount_lamports) dst e.hash 40
      (by simp [hs, u64ToLe_length])
    simpa [hh, List.append_assoc] using h
  have e3 : setRange (e.seeds ++ (u64ToLe e.amount_lamports ++ (e.hash ++ dst.drop 104))) 104
        [if e.is_claimed then 1 else 0]
      = e.seeds ++ (u64ToLe e.amount_lamports ++
          (e.hash ++ ((if e.is_claimed then 1 else 0) :: dst.drop 105))) := by
    have h := setRange_shift_drop (e.seeds ++ u64ToLe e.amount_lamports ++ e.hash) dst
      [if e.is_claimed then 1 else 0] 104 (by simp [hs, hh, u64ToLe_length])
    simpa [List.append_assoc] using h
  unfold EscrowAccount.pack
  rw [if_neg (by simp only [EscrowAccount.SIZE]; omega)]
  cases hrec : e.receiver with
  | none =>
    have e4 : setRange (e.seeds ++ (u64ToLe e.amount_lamports ++
          (e.hash ++ ((if e.is_claimed then 1 else 0) :: dst.drop 105)))) 105 [0]
        = e.seeds ++ (u64ToLe e.amount_lamports ++
          (e.hash ++ ((if e.is_claimed then 1 else 0) :: (0 : Nat) :: dst.drop 106))) := by
      have h := setRange_shift_drop
        (e.seeds ++ u64ToLe e.amount_lamports ++ e.hash ++ [if e.is_claimed then 1 else 0])
        dst [0] 105 (by simp [hs, hh, u64ToLe_length])
      simpa [List.append_assoc] using h
    have e5 : setRange (e.seeds ++ (u64ToLe e.amount_lamports ++
          (e.hash ++ ((if e.is_claimed then 1 else 0) :: (0 : Nat) :: dst.drop 106)))) 106
          (List.replicate 32 0)
        = e.seeds ++ (u64ToLe e.amount_lamports ++
          (e.hash ++ ((if e.is_claimed then 1 else 0) :: (0 : Nat) ::
            (List.replicate 32 0 ++ dst.drop 138)))) := by
      have h := setRange_shift_drop
        (e.seeds ++ u64ToLe e.amount_lamports ++ e.hash ++
          [if e.is_claimed then 1 else 0] ++ [0]) dst (List.replicate 32 0) 106
        (by simp [hs, hh, u64ToLe_length])
      simpa [List.append_assoc] using h
    have e6 : setRange (e.seeds ++ (u64ToLe e.amount_lamports ++
          (e.hash ++ ((if e.is_claimed then 1 else 0) :: (0 : Nat) ::
            (List.replicate 32 0 ++ dst.drop 138))))) 138 e.initializer
        = e.seeds ++ (u64ToLe e.amount_lamports ++
          (e.hash ++ ((if e.is_claimed then 1 else 0) :: (0 : Nat) ::
            (List.replicate 32 0 ++ (e.initializer ++ dst.drop 170))))) := by
      have h := setRange_shift_drop
        (e.seeds ++ u64ToLe e.amount_lamports ++ e.hash ++
          [if e.is_claimed then 1 else 0] ++ [0] ++ List.replicate 32 0) dst
        e.initializer 138 (by simp [hs, hh, u64ToLe_length])
      simpa [hi, List.append_assoc] using h
    try dsimp only
    rw [e0, e1, e2, e3, e4, e5, e6]
    simp [packBytes, hrec, List.append_assoc]
  | some r =>
    have hrl : r.length = 32 := hr r hrec
    have e4 : setRange (e.seeds ++ (u64ToLe e.amount_lamports ++
          (e.hash ++ ((if e.is_claimed then 1 else 0) :: dst.drop 105)))) 105 [1]
        = e.seeds ++ (u64ToLe e.amount_lamports ++
          (e.hash ++ ((if e.is_claimed then 1 else 0) :: (1 : Nat) :: dst.drop 106))) := by
      have h := setRange_shift_drop
        (e.seeds ++ u64ToLe e.amount_lamports ++ e.hash ++ [if e.is_claimed then 1 else 0])
        dst [1] 105 (by simp [hs, hh, u64ToLe_length])
      simpa [List.append_assoc] using h
    have e5 : setRange (e.seeds ++ (u64ToLe e.amount_lamports ++
          (e.hash ++ ((if e.is_claimed then 1 else 0) :: (1 : Nat) :: dst.drop 106)))) 106 r
        = e.seeds ++ (u64ToLe e.amount_lamports ++
          (e.hash ++ ((if e.is_claimed then 1 else 0) :: (1 : Nat) ::
            (r ++ dst.drop 138)))) := by
      have h := setRange_shift_drop
        (e.seeds ++ u64ToLe e.amount_lamports ++ e.hash ++
          [if e.is_claimed then 1 else 0] ++ [1]) dst r 106
        (by simp [hs, hh, u64ToLe_length])
      simpa [hrl, List.append_assoc] using h
    have e6 : setRange (e.seeds ++ (u64ToLe e.amount_lamports ++
          (e.hash ++ ((if e.is_claimed then 1 else 0) :: (1 : Nat) ::
            (r ++ dst.drop 138))))) 138 e.initializer
        = e.seeds ++ (u64ToLe e.amount_lamports ++
          (e.hash ++ ((if e.is_claimed then 1 else 0) :: (1 : Nat) ::
            (r ++ (e.initializer ++ dst.drop 170))))) := by
      have h := setRange_shift_drop
        (e.seeds ++ u64ToLe e.amount_lamports ++ e.hash ++
          [if e.is_claimed then 1 else 0] ++ [1] ++ r) dst
        e.initializer 138 (by simp [hs, hh, hrl, u64ToLe_length])
      simpa [hi, List.append_assoc] using h
    try dsimp only
    rw [e0, e1, e2, e3, e4, e5, e6]
    simp [packBytes, hrec, List.append_assoc]

theorem unpack_canonical (se leb ha : List Nat) (c f : Nat) (rb ini rest : List Nat)
    (hs : se.length = 32) (hl : leb.length = 8) (hh : ha.length = 64)
    (hrb : rb.length = 32) (hi : ini.length = 32) :
    EscrowAccount.unpack (se ++ (leb ++ (ha ++ (c :: f :: (rb ++ (ini ++ rest)))))) =
      .ok { seeds := se, amount_lamports := u64FromLe leb, hash := ha,
            is_claimed := c != 0,
            receiver := if f != 0 then some rb else none,
            initializer := ini } := by
  set X := rb ++ (ini ++ rest) with hX
  set BIG := se ++ (leb ++ (ha ++ (c :: f :: X))) with hBIG
  have gSe : BIG.take 32 = se := by
    rw [hBIG]; exact List.take_left' hs
  have gAm : listSlice BIG 32 40 = leb := by
    rw [hBIG, listSlice_shift se _ 32 40 (by omega)]
    rw [show (32 : Nat) - se.length = 0 from by omega,
      show (40 : Nat) - se.length = 8 from by omega, listSlice_take]
    exact List.take_left' hl
  have gHash : listSlice BIG 40 104 = ha := by
    rw [hBIG, listSlice_shift se _ 40 104 (by omega)]
    rw [show (40 : Nat) - se.length = 8 from by omega,
      show (104 : Nat) - se.length = 72 from by omega]
    rw [listSlice_shift leb _ 8 72 (by omega)]
    rw [show (8 : Nat) - leb.length = 0 from by omega,
      show (72 : Nat) - leb.length = 64 from by omega, listSlice_take]
    exact List.take_left' hh
  have g104 : BIG.getD 104 0 = c := by
    rw [hBIG, getD_shift se _ 104 0 (by omega)]
    rw [show (104 : Nat) - se.length = 72 from by omega]
    rw [getD_shift leb _ 72 0 (by omega)]
    rw [show (72 : Nat) - leb.length = 64 from by omega]
    rw [getD_shift ha _ 64 0 (by omega)]
    rw [show (64 : Nat) - ha.length = 0 from by omega]
    rfl
  have g105 : BIG.getD 105 0 = f := by
    rw [hBIG, getD_shift se _ 105 0 (by omega)]
    rw [show (105 : Nat) - se.length = 73 from by omega]
    rw [getD_shift leb _ 73 0 (by omega)]
    rw [show (73 : Nat) - leb.length = 65 from by omega]
    rw [getD_shift ha _ 65 0 (by omega)]
    rw [show (65 : Nat) - ha.length = 1 from by omega]
    rfl
  have gRecv : listSlice BIG 106 138 = rb := by
    rw [hBIG, listSlice_shift se _ 106 138 (by omega)]
    rw [show (106 : Nat) - se.length = 74 from by omega,
      show (138 : Nat) - se.length = 106 from by omega]
    rw [listSlice_shift leb _ 74 106 (by omega)]
    rw [show (74 : Nat) - leb.length = 66 from by omega,
      show (106 : Nat) - leb.length = 98 from by omega]
    rw [listSlice_shift ha _ 66 98 (by omega)]
    rw [show (66 : Nat) - ha.length = 2 from by omega,
      show (98 : Nat) - ha.length = 34 from by omega]
    show listSlice ([c, f] ++ X) 2 34 = rb
    rw [listSlice_shift [c, f] _ 2 34 (by simp)]
    rw [show (2 : Nat) - ([c, f] : List Nat).length = 0 from by simp,
      show (34 : Nat) - ([c, f] : List Nat).length = 32 from by simp, listSlice_take]
    rw [hX]
    exact List.take_left' hrb
  have gIni : listSlice BIG 138 170 = ini := by
    rw [hBIG, listSlice_shift se _ 138 170 (by omega)]
    rw [show (138 : Nat) - se.length = 106 from by omega,
      show (170 : Nat) - se.length = 138 from by omega]
    rw [listSlice_shift leb _ 106 138 (by omega)]
    rw [show (106 : Nat) - leb.length = 98 from by omega,
      show (138 : Nat) - leb.length = 130 from by omega]
    rw [listSlice_shift ha _ 98 130 (by omega)]
    rw [show (98 : Nat) - ha.length = 34 from by omega,
      show (130 : Nat) - ha.length = 66 from by omega]
    show listSlice ([c, f] ++ X) 34 66 = ini
    rw [listSlice_shift [c, f] _ 34 66 (by simp)]
    rw [show (34 : Nat) - ([c, f] : List Nat).length = 32 from by simp,
      show (66 : Nat) - ([c, f] : List Nat).length = 64 from by simp]
    rw [hX, listSlice_shift rb _ 32 64 (by omega)]
    rw [show (32 : Nat) - rb.length = 0 from by omega,
      show (64 : Nat) - rb.length = 32 from by omega, listSlice_take]
    exact List.take_left' hi
  have hlen : ¬ BIG.length < EscrowAccount.SIZE := by
    rw [hBIG, hX]
    simp only [List.length_append, List.length_cons, EscrowAccount.SIZE]
    omega
  unfold EscrowAccount.unpack
  rw [if_neg hlen, gSe, gAm, gHash, g104, g105, gRecv, gIni]

theorem unpack_packBytes (e : EscrowAccount) (rest : List Nat)
    (hs : e.seeds.length = 32) (hh : e.hash.length = 64)
    (hr : ∀ r, e.receiver = some r → r.length = 32)
    (hi : e.initializer.length = 32)
    (hamt : e.amount_lamports < 2^64) :
    EscrowAccount.unpack (packBytes e ++ rest) = .ok e := by
  obtain ⟨se, am, ha, ic, re, ini⟩ := e
  rcases re with _ | r
  · have hb : packBytes ⟨se, am, ha, ic, none, ini⟩ ++ rest
        = se ++ (u64ToLe am ++ (ha ++ ((if ic then 1 else 0) ::
            (0 : Nat) :: (List.replicate 32 0 ++ (ini ++ rest))))) := by
      simp [packBytes, List.append_assoc]
    rw [hb, unpack_canonical se (u64ToLe am) ha _ 0 (List.replicate 32 0) ini rest hs
      (u64ToLe_length am) hh (by simp) hi]
    cases ic <;> simp [u64FromLe_u64ToLe am hamt]
  · have hrl : r.length = 32 := hr r rfl
    have hb : packBytes ⟨se, am, ha, ic, some r, ini⟩ ++ rest
        = se ++ (u64ToLe am ++ (ha ++ ((if ic then 1 else 0) ::
            (1 : Nat) :: (r ++ (ini ++ rest))))) := by
      simp [packBytes, List.append_assoc]
    rw [hb, unpack_canonical se (u64ToLe am) ha _ 1 r ini rest hs
      (u64ToLe_length am) hh hrl hi]
    cases ic <;> simp [u64FromLe_u64ToLe am hamt]

theorem unpack_ok_wf {src : List Nat} {e : EscrowAccount}
    (h : EscrowAccount.unpack src = .ok e) :
    170 ≤ src.length ∧ e.seeds.length = 32 ∧ e.hash.length = 64 ∧
      e.initializer.length = 32 ∧ ∀ r, e.receiver = some r → r.length = 32 := by
  unfold EscrowAccount.unpack at h
  split at h
  · simp at h
  · rename_i hlen
    simp only [EscrowAccount.SIZE] at hlen
    have h170 : 170 ≤ src.length := by omega
    simp only [Except.ok.injEq] at h
    subst h
    refine ⟨h170, ?_, ?_, ?_, ?_⟩
    · simp [List.length_take]; omega
    · simp [listSlice_length]; omega
    · simp [listSlice_length]; omega
    · intro r hr
      simp at hr
      rw [← hr.2]
      simp [listSlice_length]; omega

/-- The success path of `handle_claim_callback`: matching trimmed texts
release the escrow — lamports move, the record is re-packed claimed with
the receiver recorded, nothing else changes. -/
theorem callback_success
    (ext : Externals) (pid : List Nat) (a0 req esc recv : AccountInfo)
    (rest : List AccountInfo) (data : List Nat) (cb : BonsolCallback)
    (computed stored : List Nat) (escRec : EscrowAccount)
    (hw1 : esc.is_writable = true) (hw2 : recv.is_writable = true)
    (hreq : 32 ≤ req.data.length)
    (hcb : ext.handleCb (req.data.take 32) (a0 :: req :: esc :: recv :: rest) data = .ok cb)
    (hne : cb.committed_outputs ≠ [])
    (hdc : utf8Decode cb.committed_outputs = some computed)
    (hun : EscrowAccount.unpack esc.data = .ok escRec)
    (hcl : escRec.is_claimed = false)
    (hds : utf8Decode escRec.hash = some stored)
    (heq : trimCps computed = trimCps stored)
    (hamt : escRec.amount_lamports ≤ esc.lamports)
    (hlt : esc.lamports < 2^64)
    (hrc : recv.lamports + escRec.amount_lamports < 2^64)
    (hrk : recv.key.length = 32) :
    handle_claim_callback ext pid (a0 :: req :: esc :: recv :: rest) data =
      .ok (a0 :: req ::
        { esc with
            lamports := esc.lamports - escRec.amount_lamports,
            data := packBytes
                { escRec with is_claimed := true, receiver := some recv.key }
              ++ esc.data.drop 170 } ::
        { recv with lamports := recv.lamports + escRec.amount_lamports } :: rest) := by
  obtain ⟨h170, hsl, hhl, hil, _⟩ := unpack_ok_wf hun
  have hpack := pack_eq_packBytes
    { escRec with is_claimed := true, receiver := some recv.key } esc.data
    hsl hhl (by intro r hr; cases hr; exact hrk) hil h170
  unfold handle_claim_callback
  try dsimp only
  rw [if_neg (by simp [hw1, hw2]), if_neg (by omega), hcb]
  try dsimp only
  rw [if_neg (by simpa using hne), hdc]
  try dsimp only
  rw [hun]
  try dsimp only
  rw [if_neg (by simp [hcl]), hds]
  try dsimp only
  rw [if_pos heq]
  try dsimp only
  rw [hpack]
  try dsimp only
  rw [wsub64_eq _ _ hamt hlt, wadd64_eq _ _ hrc]

/-- The mismatch path of `handle_claim_callback`: differing trimmed texts
fail with `Custom 2` (hash mismatch) and the accounts are untouched. -/
theorem callback_mismatch
    (ext : Externals) (pid : List Nat) (a0 req esc recv : AccountInfo)
    (rest : List AccountInfo) (data : List Nat) (cb : BonsolCallback)
    (computed stored : List Nat) (escRec : EscrowAccount)
    (hw1 : esc.is_writable = true) (hw2 : recv.is_writable = true)
    (hreq : 32 ≤ req.data.length)
    (hcb : ext.handleCb (req.data.take 32) (a0 :: req :: esc :: recv :: rest) data = .ok cb)
    (hne : cb.committed_outputs ≠ [])
    (hdc : utf8Decode cb.committed_outputs = some computed)
    (hun : EscrowAccount.unpack esc.data = .ok escRec)
    (hcl : escRec.is_claimed = false)
    (hds : utf8Decode escRec.hash = some stored)
    (heq : trimCps computed ≠ trimCps stored) :
    handle_claim_callback ext pid (a0 :: req :: esc :: recv :: rest) data =
      .err (.Custom 2) (a0 :: req :: esc :: recv :: rest) := by
  unfold handle_claim_callback
  try dsimp only
  rw [if_neg (by simp [hw1, hw2]), if_neg (by omega), hcb]
  try dsimp only
  rw [if_neg (by simpa using hne), hdc]
  try dsimp only
  rw [hun]
  try dsimp only
  rw [if_neg (by simp [hcl]), hds]
  try dsimp only
  rw [if_neg heq]

/-- Replay protection of `handle_claim_callback`: once the stored record
says claimed, any authenticated, parseable callback fails with `Custom 1`
(already claimed) and the accounts are untouched. -/
theorem callback_already_claimed
    (ext : Externals) (pid : List Nat) (a0 req esc recv : AccountInfo)
    (rest : List AccountInfo) (data : List Nat) (cb : BonsolCallback)
    (computed : List Nat) (escRec : EscrowAccount)
    (hw1 : esc.is_writable = true) (hw2 : recv.is_writable = true)
    (hreq : 32 ≤ req.data.length)
    (hcb : ext.handleCb (req.data.take 32) (a0 :: req :: esc :: recv :: rest) data = .ok cb)
    (hne : cb.committed_outputs ≠ [])
    (hdc : utf8Decode cb.committed_outputs = some computed)
    (hun : EscrowAccount.unpack esc.data = .ok escRec)
    (hcl : escRec.is_claimed = true) :
    handle_claim_callback ext pid (a0 :: req :: esc :: recv :: rest) data =
      .err (.Custom 1) (a0 :: req :: esc :: recv :: rest) := by
  unfold handle_claim_callback
  try dsimp only
  rw [if_neg (by simp [hw1, hw2]), if_neg (by omega), hcb]
  try dsimp only
  rw [if_neg (by simpa using hne), hdc]
  try dsimp only
  rw [hun]
  try dsimp only
  rw [if_pos (by simp [hcl])]

/-- C1: a callback whose committed-output text, after trim, equals the
stored digest text trimmed likewise releases the escrow exactly once:
`is_claimed` goes false to true, the receiver identity is recorded,
exactly `amount_lamports` moves from the escrow balance to the receiver
balance — and every subsequent authenticated, parseable callback against
the updated escrow fails with `Custom 1` (already claimed), leaving the
accounts unchanged. -/
theorem verify_and_release_releases_exactly_once
    (ext : Externals) (pid : List Nat) (a0 req esc recv : AccountInfo)
    (rest : List AccountInfo) (data : List Nat) (cb : BonsolCallback)
    (computed stored : List Nat) (escRec : EscrowAccount)
    (hw1 : esc.is_writable = true) (hw2 : recv.is_writable = true)
    (hreq : 32 ≤ req.data.length)
    (hcb : ext.handleCb (req.data.take 32) (a0 :: req :: esc :: recv :: rest) data = .ok cb)
    (hne : cb.committed_outputs ≠ [])
    (hdc : utf8Decode cb.committed_outputs = some computed)
    (hun : EscrowAccount.unpack esc.data = .ok escRec)
    (hcl : escRec.is_claimed = false)
    (hds : utf8Decode escRec.hash = some stored)
    (heq : trimCps computed = trimCps stored)
    (hamt : escRec.amount_lamports ≤ esc.lamports)
    (hlt : esc.lamports < 2^64)
    (hrc : recv.lamports + escRec.amount_lamports < 2^64)
    (hrk : recv.key.length = 32) :
    ∃ d',
      handle_claim_callback ext pid (a0 :: req :: esc :: recv :: rest) data =
        .ok (a0 :: req ::
          { esc with lamports := esc.lamports - escRec.amount_lamports, data := d' } ::
          { recv with lamports := recv.lamports + escRec.amount_lamports } :: rest) ∧
      EscrowAccount.unpack d' =
        .ok { escRec with is_claimed := true, receiver := some recv.key } ∧
      ∀ ext2 data2 cb2 computed2,
        ext2.handleCb (req.data.take 32)
          (a0 :: req ::
            { esc with lamports := esc.lamports - escRec.amount_lamports, data := d' } ::
            { recv with lamports := recv.lamports + escRec.amount_lamports } :: rest)
          data2 = .ok cb2 →
        cb2.committed_outputs ≠ [] →
        utf8Decode cb2.committed_outputs = some computed2 →
        handle_claim_callback ext2 pid
          (a0 :: req ::
            { esc with lamports := esc.lamports - escRec.amount_lamports, data := d' } ::
            { recv with lamports := recv.lamports + escRec.amount_lamports } :: rest)
          data2 =
        .err (.Custom 1)
          (a0 :: req ::
            { esc with lamports := esc.lamports - escRec.amount_lamports, data := d' } ::
            { recv with lamports := recv.lamports + escRec.amount_lamports } :: rest) := by
  obtain ⟨h170, hsl, hhl, hil, _⟩ := unpack_ok_wf hun
  refine ⟨packBytes { escRec with is_claimed := true, receiver := some recv.key }
    ++ esc.data.drop 170, ?_, ?_, ?_⟩
  · exact callback_success ext pid a0 req esc recv rest data cb computed stored escRec
      hw1 hw2 hreq hcb hne hdc hun hcl hds heq hamt hlt hrc hrk
  · exact unpack_packBytes _ _ hsl hhl
      (by intro r hr; cases hr; exact hrk) hil
      (show escRec.amount_lamports < 2 ^ 64 by omega)
  · intro ext2 data2 cb2 computed2 h1 h2 h3
    exact callback_already_claimed ext2 pid a0 req _ _ rest data2 cb2 computed2
      { escRec with is_claimed := true, receiver := some recv.key }
      hw1 hw2 hreq h1 h2 h3
      (unpack_packBytes _ _ hsl hhl
        (by intro r hr; cases hr; exact hrk) hil
        (show escRec.amount_lamports < 2 ^ 64 by omega))
      rfl

/-- C2: a callback whose trimmed committed-output text differs from the
trimmed stored digest text fails with `Custom 2` (hash mismatch), and the
escrow balance, claimed flag and receiver bytes are exactly as before the
call. -/
theorem verify_and_release_hash_mismatch
    (ext : Externals) (pid : List Nat) (a0 req esc recv : AccountInfo)
    (rest : List AccountInfo) (data : List Nat) (cb : BonsolCallback)
    (computed stored : List Nat) (escRec : EscrowAccount)
    (hw1 : esc.is_writable = true) (hw2 : recv.is_writable = true)
    (hreq : 32 ≤ req.data.length)
    (hcb : ext.handleCb (req.data.take 32) (a0 :: req :: esc :: recv :: rest) data = .ok cb)
    (hne : cb.committed_outputs ≠ [])
    (hdc : utf8Decode cb.committed_outputs = some computed)
    (hun : EscrowAccount.unpack esc.data = .ok escRec)
    (hcl : escRec.is_claimed = false)
    (hds : utf8Decode escRec.hash = some stored)
    (heq : trimCps computed ≠ trimCps stored) :
    handle_claim_callback ext pid (a0 :: req :: esc :: recv :: rest) data =
      .err (.Custom 2) (a0 :: req :: esc :: recv :: rest) :=
  callback_mismatch ext pid a0 req esc recv rest data cb computed stored escRec
    hw1 hw2 hreq hcb hne hdc hun hcl hds heq

deriving instance DecidableEq for Except

/-! ### Concrete inputs for witnesses and counterexamples -/

/-- 64 bytes of ASCII `a`: a stand-in for the 64 hex characters of a
SHA-256 digest text. -/
def wHash : List Nat := List.replicate 64 97

/-- A different 64-character digest text (ASCII `b`). -/
def wHashB : List Nat := List.replicate 64 98

/-- Receiver address used in concrete runs. -/
def wKeyRecv : List Nat := List.replicate 32 1

/-- A stored escrow record image: seed zeros, amount 5, digest `wHash`,
unclaimed, no receiver, initializer address of 2s. -/
def wEscData : List Nat :=
  List.replicate 32 0 ++ u64ToLe 5 ++ wHash ++ [0] ++ [0] ++
    List.replicate 32 0 ++ List.replicate 32 2

/-- The record stored in `wEscData`. -/
def wEscRec : EscrowAccount :=
  ⟨List.replicate 32 0, 5, wHash, false, none, List.replicate 32 2⟩

/-- Externals whose oracle callback asserts `wHash`. -/
def wExt : Externals :=
  { findPda := fun _ _ => (List.replicate 32 3, 200)
    rentMin := fun _ => 7
    clockSlot := 0
    executeOk := true
    bonsolOk := true
    handleCb := fun _ _ _ => .ok ⟨wHash⟩ }

/-- Externals whose oracle callback asserts `wHashB` (a mismatch for an
escrow committed to `wHash`). -/
def wExtB : Externals :=
  { wExt with handleCb := fun _ _ _ => .ok ⟨wHashB⟩ }

/-- Callback-authority account (ignored by the handler). -/
def wA0 : AccountInfo := ⟨List.replicate 32 4, 0, [], true, false⟩

/-- Requester (execution tracker) account with a 32-byte data buffer. -/
def wReq : AccountInfo := ⟨List.replicate 32 5, 1, List.replicate 32 9, false, false⟩

/-- Requester account whose data buffer is empty (fewer than 32 bytes). -/
def wReqShort : AccountInfo := ⟨List.replicate 32 5, 1, [], false, false⟩

/-- Escrow account holding 100 lamports and the record `wEscData`. -/
def wEsc : AccountInfo := ⟨List.replicate 32 3, 100, wEscData, false, true⟩

/-- Receiver account. -/
def wRecv : AccountInfo := ⟨wKeyRecv, 10, [], false, true⟩

theorem verify_and_release_releases_exactly_once_witness :
    ∃ d',
      handle_claim_callback wExt [] [wA0, wReq, wEsc, wRecv] [] =
        .ok [wA0, wReq,
          { wEsc with lamports := 95, data := d' },
          { wRecv with lamports := 15 }] ∧
      EscrowAccount.unpack d' =
        .ok ⟨List.replicate 32 0, 5, wHash, true, some wKeyRecv, List.replicate 32 2⟩ ∧
      ∀ ext2 data2 cb2 computed2,
        ext2.handleCb (wReq.data.take 32)
          [wA0, wReq, { wEsc with lamports := 95, data := d' },
            { wRecv with lamports := 15 }] data2 = .ok cb2 →
        cb2.committed_outputs ≠ [] →
        utf8Decode cb2.committed_outputs = some computed2 →
        handle_claim_callback ext2 []
          [wA0, wReq, { wEsc with lamports := 95, data := d' },
            { wRecv with lamports := 15 }] data2 =
        .err (.Custom 1)
          [wA0, wReq, { wEsc with lamports := 95, data := d' },
            { wRecv with lamports := 15 }] :=
  verify_and_release_releases_exactly_once wExt [] wA0 wReq wEsc wRecv [] []
    ⟨wHash⟩ wHash wHash wEscRec rfl rfl (by decide) rfl (by decide) (by decide)
    (by decide) rfl (by decide) rfl (by decide) (by decide) (by decide) (by decide)

theorem verify_and_release_hash_mismatch_witness :
    handle_claim_callback wExtB [] [wA0, wReq, wEsc, wRecv] [] =
      .err (.Custom 2) [wA0, wReq, wEsc, wRecv] :=
  verify_and_release_hash_mismatch wExtB [] wA0 wReq wEsc wRecv [] []
    ⟨wHashB⟩ wHashB wHash wEscRec rfl rfl (by decide) rfl (by decide) (by decide)
    (by decide) rfl (by decide) (by decide)

/-- C6 (amended): on a successful release the persisted record's stored
`amount_lamports` field is left unchanged — it still holds the full
escrowed amount rather than being zeroed; only the account balance is
debited.  The record is re-packed with `is_claimed = true` and the same
amount field. -/
theorem release_preserves_stored_amount
    (ext : Externals) (pid : List Nat) (a0 req esc recv : AccountInfo)
    (rest : List AccountInfo) (data : List Nat) (cb : BonsolCallback)
    (computed stored : List Nat) (escRec : EscrowAccount)
    (hw1 : esc.is_writable = true) (hw2 : recv.is_writable = true)
    (hreq : 32 ≤ req.data.length)
    (hcb : ext.handleCb (req.data.take 32) (a0 :: req :: esc :: recv :: rest) data = .ok cb)
    (hne : cb.committed_outputs ≠ [])
    (hdc : utf8Decode cb.committed_outputs = some computed)
    (hun : EscrowAccount.unpack esc.data = .ok escRec)
    (hcl : escRec.is_claimed = false)
    (hds : utf8Decode escRec.hash = some stored)
    (heq : trimCps computed = trimCps stored)
    (hamt : escRec.amount_lamports ≤ esc.lamports)
    (hlt : esc.lamports < 2^64)
    (hrc : recv.lamports + escRec.amount_lamports < 2^64)
    (hrk : recv.key.length = 32) :
    ∃ d' rec',
      handle_claim_callback ext pid (a0 :: req :: esc :: recv :: rest) data =
        .ok (a0 :: req ::
          { esc with lamports := esc.lamports - escRec.amount_lamports, data := d' } ::
          { recv with lamports := recv.lamports + escRec.amount_lamports } :: rest) ∧
      EscrowAccount.unpack d' = .ok rec' ∧
      rec'.is_claimed = true ∧
      rec'.amount_lamports = escRec.amount_lamports := by
  obtain ⟨h170, hsl, hhl, hil, _⟩ := unpack_ok_wf hun
  refine ⟨packBytes { escRec with is_claimed := true, receiver := some recv.key }
      ++ esc.data.drop 170,
    { escRec with is_claimed := true, receiver := some recv.key }, ?_, ?_, rfl, rfl⟩
  · exact callback_success ext pid a0 req esc recv rest data cb computed stored escRec
      hw1 hw2 hreq hcb hne hdc hun hcl hds heq hamt hlt hrc hrk
  · exact unpack_packBytes _ _ hsl hhl
      (by intro r hr; cases hr; exact hrk) hil
      (show escRec.amount_lamports < 2 ^ 64 by omega)

theorem release_preserves_stored_amount_witness :
    ∃ d' rec',
      handle_claim_callback wExt [] [wA0, wReq, wEsc, wRecv] [] =
        .ok [wA0, wReq,
          { wEsc with lamports := 95, data := d' },
          { wRecv with lamports := 15 }] ∧
      EscrowAccount.unpack d' = .ok rec' ∧
      rec'.is_claimed = true ∧
      rec'.amount_lamports = wEscRec.amount_lamports :=
  release_preserves_stored_amount wExt [] wA0 wReq wEsc wRecv [] []
    ⟨wHash⟩ wHash wHash wEscRec rfl rfl (by decide) rfl (by decide) (by decide)
    (by decide) rfl (by decide) rfl (by decide) (by decide) (by decide) (by decide)

/-- Escrow record image with amount 1000 committed to `wHash`. -/
def wEscData1000 : List Nat :=
  List.replicate 32 0 ++ u64ToLe 1000 ++ wHash ++ [0] ++ [0] ++
    List.replicate 32 0 ++ List.replicate 32 2

/-- Escrow account holding 2000 lamports and the amount-1000 record. -/
def wEsc1000 : AccountInfo := ⟨List.replicate 32 3, 2000, wEscData1000, false, true⟩

/-- Stored `amount_lamports` of the escrow record (account index 2) after
a call that returned `ok`. -/
def storedAmountAfter (o : Outcome) : Option Nat :=
  match o with
  | .ok accs =>
    match EscrowAccount.unpack (accs.getD 2 ⟨[], 0, [], false, false⟩).data with
    | .ok e => some e.amount_lamports
    | .error _ => none
  | _ => none

/-- C6 counterexample: a successful release of a 1000-lamport escrow
leaves the persisted record's amount field at 1000 — it is never
decremented to zero. -/
theorem release_zeroes_amount_cx :
    storedAmountAfter (handle_claim_callback wExt [] [wA0, wReq, wEsc1000, wRecv] []) =
      some 1000 ∧ (1000 : Nat) ≠ 0 := by
  refine ⟨by decide, by decide⟩

/-- C10: a VerifyAndRelease invocation whose tracker (requester) account
holds fewer than 32 bytes of data panics on the out-of-bounds slice
`requester_data[0..32]` instead of returning an error code. -/
theorem callback_short_tracker_data_panics :
    handle_claim_callback wExt [] [wA0, wReqShort, wEsc, wRecv] [] = .panicked := by
  decide

theorem u16ToLe_length (n : Nat) : (u16ToLe n).length = 2 := rfl

theorem u16FromLe_u16ToLe (n : Nat) (h : n < 2^16) : u16FromLe (u16ToLe n) = n := by
  simp only [u16ToLe, u16FromLe, List.getD_cons_zero, List.getD_cons_succ]
  omega

theorem initialize_parse (ext : Externals) (pid : List Nat)
    (accounts : List AccountInfo) (seed hash : List Nat) (amount : Nat)
    (hh : hash.length = 64) (hamt : amount < 2^64) :
    initialize_escrow ext pid accounts (initPayload seed hash amount) =
      initializeBody ext pid accounts seed hash amount := by
  have hlen : (initPayload seed hash amount).length = seed.length + 74 := by
    simp only [initPayload, List.length_cons, List.length_nil, List.length_append, u64ToLe_length, hh]
    omega
  have g0 : (initPayload seed hash amount).getD 0 0 = seed.length := by
    simp only [initPayload]
    rfl
  have gSeed : listSlice (initPayload seed hash amount) 1 (1 + seed.length) = seed := by
    simp only [initPayload]
    rw [listSlice_shift [seed.length] _ 1 (1 + seed.length) (by simp only [List.length_cons, List.length_nil]; try omega)]
    rw [show (1 : Nat) - ([seed.length] : List Nat).length = 0 from by simp only [List.length_cons, List.length_nil]; try omega,
      show 1 + seed.length - ([seed.length] : List Nat).length = seed.length from by simp only [List.length_cons, List.length_nil]; try omega,
      listSlice_take]
    exact List.take_left' rfl
  have gHL : (initPayload seed hash amount).getD (1 + seed.length) 0 = hash.length := by
    simp only [initPayload]
    rw [getD_shift [seed.length] _ (1 + seed.length) 0 (by simp only [List.length_cons, List.length_nil]; try omega)]
    rw [show 1 + seed.length - ([seed.length] : List Nat).length = seed.length from by simp only [List.length_cons, List.length_nil]; try omega]
    rw [getD_shift seed _ seed.length 0 (by omega)]
    rw [show seed.length - seed.length = 0 from by omega]
    rfl
  have gHash : listSlice (initPayload seed hash amount)
      (2 + seed.length) (2 + seed.length + 64) = hash := by
    simp only [initPayload]
    rw [listSlice_shift [seed.length] _ (2 + seed.length) (2 + seed.length + 64) (by simp only [List.length_cons, List.length_nil]; try omega)]
    rw [show 2 + seed.length - ([seed.length] : List Nat).length = 1 + seed.length from by simp only [List.length_cons, List.length_nil]; try omega,
      show 2 + seed.length + 64 - ([seed.length] : List Nat).length = 1 + seed.length + 64
        from by simp only [List.length_cons, List.length_nil]; try omega]
    rw [listSlice_shift seed _ (1 + seed.length) (1 + seed.length + 64) (by omega)]
    rw [show 1 + seed.length - seed.length = 1 from by omega,
      show 1 + seed.length + 64 - seed.length = 65 from by omega]
    rw [listSlice_shift [hash.length] _ 1 65 (by simp only [List.length_cons, List.length_nil]; try omega)]
    rw [show (1 : Nat) - ([hash.length] : List Nat).length = 0 from by simp only [List.length_cons, List.length_nil]; try omega,
      show (65 : Nat) - ([hash.length] : List Nat).length = 64 from by simp only [List.length_cons, List.length_nil]; try omega, listSlice_take]
    exact List.take_left' hh
  have gAmt : listSlice (initPayload seed hash amount)
      (2 + seed.length + 64) (2 + seed.length + 64 + 8) = u64ToLe amount := by
    simp only [initPayload]
    rw [listSlice_shift [seed.length] _ (2 + seed.length + 64) (2 + seed.length + 64 + 8)
      (by simp only [List.length_cons, List.length_nil]; try omega)]
    rw [show 2 + seed.length + 64 - ([seed.length] : List Nat).length = 1 + seed.length + 64
        from by simp only [List.length_cons, List.length_nil]; try omega,
      show 2 + seed.length + 64 + 8 - ([seed.length] : List Nat).length = 1 + seed.length + 72
        from by simp only [List.length_cons, List.length_nil]; try omega]
    rw [listSlice_shift seed _ (1 + seed.length + 64) (1 + seed.length + 72) (by omega)]
    rw [show 1 + seed.length + 64 - seed.length = 65 from by omega,
      show 1 + seed.length + 72 - seed.length = 73 from by omega]
    rw [listSlice_shift [hash.length] _ 65 73 (by simp only [List.length_cons, List.length_nil]; try omega)]
    rw [show (65 : Nat) - ([hash.length] : List Nat).length = 64 from by simp only [List.length_cons, List.length_nil]; try omega,
      show (73 : Nat) - ([hash.length] : List Nat).length = 72 from by simp only [List.length_cons, List.length_nil]; try omega]
    rw [listSlice_shift hash _ 64 72 (by omega)]
    rw [show (64 : Nat) - hash.length = 0 from by omega,
      show (72 : Nat) - hash.length = 8 from by omega, listSlice_take]
    exact List.take_left' (u64ToLe_length amount)
  unfold initialize_escrow
  try dsimp only
  rw [g0]
  rw [if_neg (by simp only [hlen]; omega), if_neg (by simp only [hlen]; omega)]
  rw [gSeed, gHL, hh]
  rw [if_neg (by simp only [hlen]; omega)]
  rw [gHash, gAmt, u64FromLe_u64ToLe amount hamt]
  rw [if_neg (by omega)]

theorem claim_parse (ext : Externals) (pid : List Nat)
    (accounts : List AccountInfo) (execId : List Nat) (bump tip expiry : Nat)
    (seed preimage : List Nat)
    (he : execId.length = 16) (hev : utf8Valid execId = true)
    (hp : preimage.length < 2^16) (hpv : utf8Valid preimage = true)
    (hex : expiry < 2^64) :
    claim_escrow ext pid accounts (claimPayload execId bump tip expiry seed preimage) =
      claimBody ext pid accounts execId seed expiry := by
  have hlen : (claimPayload execId bump tip expiry seed preimage).length =
      seed.length + preimage.length + 36 := by
    simp only [claimPayload, List.length_cons, List.length_nil, List.length_append,
      u64ToLe_length, u16ToLe_length, he]
    omega
  have gTake : (claimPayload execId bump tip expiry seed preimage).take 16 = execId := by
    simp only [claimPayload]
    exact List.take_left' he
  have gExp : listSlice (claimPayload execId bump tip expiry seed preimage) 25 33 =
      u64ToLe expiry := by
    simp only [claimPayload]
    rw [listSlice_shift execId _ 25 33 (by omega)]
    rw [show (25 : Nat) - execId.length = 9 from by omega,
      show (33 : Nat) - execId.length = 17 from by omega]
    rw [listSlice_shift [bump] _ 9 17 (by simp only [List.length_cons, List.length_nil]; omega)]
    rw [show (9 : Nat) - ([bump] : List Nat).length = 8
        from by simp only [List.length_cons, List.length_nil]; try omega,
      show (17 : Nat) - ([bump] : List Nat).length = 16
        from by simp only [List.length_cons, List.length_nil]; try omega]
    rw [listSlice_shift (u64ToLe tip) _ 8 16 (by simp only [u64ToLe_length]; omega)]
    rw [show (8 : Nat) - (u64ToLe tip).length = 0 from by simp only [u64ToLe_length]; try omega,
      show (16 : Nat) - (u64ToLe tip).length = 8 from by simp only [u64ToLe_length]; try omega,
      listSlice_take]
    exact List.take_left' (u64ToLe_length expiry)
  have gSL : (claimPayload execId bump tip expiry seed preimage).getD 33 0 = seed.length := by
    simp only [claimPayload]
    rw [getD_shift execId _ 33 0 (by omega)]
    rw [show (33 : Nat) - execId.length = 17 from by omega]
    rw [getD_shift [bump] _ 17 0 (by simp only [List.length_cons, List.length_nil]; omega)]
    rw [show (17 : Nat) - ([bump] : List Nat).length = 16
        from by simp only [List.length_cons, List.length_nil]; try omega]
    rw [getD_shift (u64ToLe tip) _ 16 0 (by simp only [u64ToLe_length]; omega)]
    rw [show (16 : Nat) - (u64ToLe tip).length = 8 from by simp only [u64ToLe_length]; try omega]
    rw [getD_shift (u64ToLe expiry) _ 8 0 (by simp only [u64ToLe_length]; omega)]
    rw [show (8 : Nat) - (u64ToLe expiry).length = 0
        from by simp only [u64ToLe_length]; try omega]
    rfl
  have gSeed : listSlice (claimPayload execId bump tip expiry seed preimage)
      34 (34 + seed.length) = seed := by
    simp only [claimPayload]
    rw [listSlice_shift execId _ 34 (34 + seed.length) (by omega)]
    rw [show (34 : Nat) - execId.length = 18 from by omega,
      show 34 + seed.length - execId.length = 18 + seed.length from by omega]
    rw [listSlice_shift [bump] _ 18 (18 + seed.length)
      (by simp only [List.length_cons, List.length_nil]; omega)]
    rw [show (18 : Nat) - ([bump] : List Nat).length = 17
        from by simp only [List.length_cons, List.length_nil]; try omega,
      show 18 + seed.length - ([bump] : List Nat).length = 17 + seed.length
        from by simp only [List.length_cons, List.length_nil]; try omega]
    rw [listSlice_shift (u64ToLe tip) _ 17 (17 + seed.length)
      (by simp only [u64ToLe_length]; omega)]
    rw [show (17 : Nat) - (u64ToLe tip).length = 9 from by simp only [u64ToLe_length]; try omega,
      show 17 + seed.length - (u64ToLe tip).length = 9 + seed.length
        from by simp only [u64ToLe_length]; try omega]
    rw [listSlice_shift (u64ToLe expiry) _ 9 (9 + seed.length)
      (by simp only [u64ToLe_length]; omega)]
    rw [show (9 : Nat) - (u64ToLe expiry).length = 1
        from by simp only [u64ToLe_length]; try omega,
      show 9 + seed.length - (u64ToLe expiry).length = 1 + seed.length
        from by simp only [u64ToLe_length]; try omega]
    rw [listSlice_shift [seed.length] _ 1 (1 + seed.length)
      (by simp only [List.length_cons, List.length_nil]; omega)]
    rw [show (1 : Nat) - ([seed.length] : List Nat).length = 0
        from by simp only [List.length_cons, List.length_nil]; try omega,
      show 1 + seed.length - ([seed.length] : List Nat).length = seed.length
        from by simp only [List.length_cons, List.length_nil]; try omega,
      listSlice_take]
    exact List.take_left' rfl
  have gPL : listSlice (claimPayload execId bump tip expiry seed preimage)
      (34 + seed.length) (36 + seed.length) = u16ToLe preimage.length := by
    simp only [claimPayload]
    rw [listSlice_shift execId _ (34 + seed.length) (36 + seed.length) (by omega)]
    rw [show 34 + seed.length - execId.length = 18 + seed.length from by omega,
      show 36 + seed.length - execId.length = 20 + seed.length from by omega]
    rw [listSlice_shift [bump] _ (18 + seed.length) (20 + seed.length)
      (by simp only [List.length_cons, List.length_nil]; omega)]
    rw [show 18 + seed.length - ([bump] : List Nat).length = 17 + seed.length
        from by simp only [List.length_cons, List.length_nil]; try omega,
      show 20 + seed.length - ([bump] : List Nat).length = 19 + seed.length
        from by simp only [List.length_cons, List.length_nil]; try omega]
    rw [listSlice_shift (u64ToLe tip) _ (17 + seed.length) (19 + seed.length)
      (by simp only [u64ToLe_length]; omega)]
    rw [show 17 + seed.length - (u64ToLe tip).length = 9 + seed.length
        from by simp only [u64ToLe_length]; try omega,
      show 19 + seed.length - (u64ToLe tip).length = 11 + seed.length
        from by simp only [u64ToLe_length]; try omega]
    rw [listSlice_shift (u64ToLe expiry) _ (9 + seed.length) (11 + seed.length)
      (by simp only [u64ToLe_length]; omega)]
    rw [show 9 + seed.length - (u64ToLe expiry).length = 1 + seed.length
        from by simp only [u64ToLe_length]; try omega,
      show 11 + seed.length - (u64ToLe expiry).length = 3 + seed.length
        from by simp only [u64ToLe_length]; try omega]
    rw [listSlice_shift [seed.length] _ (1 + seed.length) (3 + seed.length)
      (by simp only [List.length_cons, List.length_nil]; omega)]
    rw [show 1 + seed.length - ([seed.length] : List Nat).length = seed.length
        from by simp only [List.length_cons, List.length_nil]; try omega,
      show 3 + seed.length - ([seed.length] : List Nat).length = 2 + seed.length
        from by simp only [List.length_cons, List.length_nil]; try omega]
    rw [listSlice_shift seed _ seed.length (2 + seed.length) (by omega)]
    rw [show seed.length - seed.length = 0 from by omega,
      show 2 + seed.length - seed.length = 2 from by omega, listSlice_take]
    exact List.take_left' (u16ToLe_length preimage.length)
  have gPre : listSlice (claimPayload execId bump tip expiry seed preimage)
      (36 + seed.length) (36 + seed.length + preimage.length) = preimage := by
    simp only [claimPayload]
    rw [listSlice_shift execId _ (36 + seed.length) (36 + seed.length + preimage.length)
      (by omega)]
    rw [show 36 + seed.length - execId.length = 20 + seed.length from by omega,
      show 36 + seed.length + preimage.length - execId.length =
        20 + seed.length + preimage.length from by omega]
    rw [listSlice_shift [bump] _ (20 + seed.length) (20 + seed.length + preimage.length)
      (by simp only [List.length_cons, List.length_nil]; omega)]
    rw [show 20 + seed.length - ([bump] : List Nat).length = 19 + seed.length
        from by simp only [List.length_cons, List.length_nil]; try omega,
      show 20 + seed.length + preimage.length - ([bump] : List Nat).length =
        19 + seed.length + preimage.length
        from by simp only [List.length_cons, List.length_nil]; try omega]
    rw [listSlice_shift (u64ToLe tip) _ (19 + seed.length)
      (19 + seed.length + preimage.length) (by simp only [u64ToLe_length]; omega)]
    rw [show 19 + seed.length - (u64ToLe tip).length = 11 + seed.length
        from by simp only [u64ToLe_length]; try omega,
      show 19 + seed.length + preimage.length - (u64ToLe tip).length =
        11 + seed.length + preimage.length from by simp only [u64ToLe_length]; try omega]
    rw [listSlice_shift (u64ToLe expiry) _ (11 + seed.length)
      (11 + seed.length + preimage.length) (by simp only [u64ToLe_length]; omega)]
    rw [show 11 + seed.length - (u64ToLe expiry).length = 3 + seed.length
        from by simp only [u64ToLe_length]; try omega,
      show 11 + seed.length + preimage.length - (u64ToLe expiry).length =
        3 + seed.length + preimage.length from by simp only [u64ToLe_length]; try omega]
    rw [listSlice_shift [seed.length] _ (3 + seed.length) (3 + seed.length + preimage.length)
      (by simp only [List.length_cons, List.length_nil]; omega)]
    rw [show 3 + seed.length - ([seed.length] : List Nat).length = 2 + seed.length
        from by simp only [List.length_cons, List.length_nil]; try omega,
      show 3 + seed.length + preimage.length - ([seed.length] : List Nat).length =
        2 + seed.length + preimage.length
        from by simp only [List.length_cons, List.length_nil]; try omega]
    rw [listSlice_shift seed _ (2 + seed.length) (2 + seed.length + preimage.length)
      (by omega)]
    rw [show 2 + seed.length - seed.length = 2 from by omega,
      show 2 + seed.length + preimage.length - seed.length = 2 + preimage.length
        from by omega]
    rw [listSlice_shift (u16ToLe preimage.length) _ 2 (2 + preimage.length)
      (by simp only [u16ToLe_length]; omega)]
    rw [show (2 : Nat) - (u16ToLe preimage.length).length = 0
        from by simp only [u16ToLe_length]; try omega,
      show 2 + preimage.length - (u16ToLe preimage.length).length = preimage.length
        from by simp only [u16ToLe_length]; try omega, listSlice_take]
    exact List.take_length preimage
  unfold claim_escrow
  try dsimp only
  rw [if_neg (by simp only [hlen]; omega)]
  rw [gTake]
  rw [if_neg (by simp [hev])]
  rw [gSL]
  rw [if_neg (by simp only [hlen]; omega)]
  rw [gSeed, gPL, u16FromLe_u16ToLe _ hp]
  rw [if_neg (by simp only [hlen]; omega)]
  rw [gPre]
  rw [if_neg (by simp [hpv])]
  rw [gExp, u64FromLe_u64ToLe expiry hex]

/-- C3 (amended): a second Initialize with the same seed and a further
amount adds the amount to the held balance, but rewrites the whole
record: `is_claimed` is reset to `false`, `receiver` is cleared and
`committed_digest`/`amount` are replaced by the newly supplied values.
Nothing of the previous record (including a `true` claimed flag)
survives. -/
theorem initialize_topup_overwrites
    (ext : Externals) (pid : List Nat) (initr esc sys : AccountInfo)
    (rest : List AccountInfo) (seed hash : List Nat) (amount : Nat)
    (hh : hash.length = 64) (hamt : amount < 2^64)
    (hsig : initr.is_signer = true)
    (hkey : esc.key = (ext.findPda pid seed).1)
    (hlam : esc.lamports ≠ 0)
    (hfund : amount ≤ initr.lamports)
    (hdata : 170 ≤ esc.data.length)
    (hik : initr.key.length = 32) :
    initialize_escrow ext pid (initr :: esc :: sys :: rest) (initPayload seed hash amount) =
      .ok ({ initr with lamports := initr.lamports - amount } ::
        { esc with
            lamports := esc.lamports + amount,
            data := packBytes ⟨seedPad seed, amount, hash, false, none, initr.key⟩
              ++ esc.data.drop 170 } :: sys :: rest) ∧
    EscrowAccount.unpack (packBytes ⟨seedPad seed, amount, hash, false, none, initr.key⟩
        ++ esc.data.drop 170) =
      .ok ⟨seedPad seed, amount, hash, false, none, initr.key⟩ := by
  have hsp : (seedPad seed).length = 32 := by
    simp only [seedPad, List.length_append, List.length_take, List.length_replicate]
    omega
  constructor
  · rw [initialize_parse ext pid _ seed hash amount hh hamt]
    unfold initializeBody
    try dsimp only
    rw [if_neg (by simp [hsig]), if_neg (by simp [hkey]), if_neg hlam, if_neg (by omega)]
    rw [pack_eq_packBytes _ _ hsp hh (by intro r hr; cases hr) hik hdata]
  · exact unpack_packBytes _ _ hsp hh (by intro r hr; cases hr) hik hamt

/-- Initializer account used in concrete Initialize runs. -/
def wInit : AccountInfo := ⟨List.replicate 32 2, 1000000, [], true, false⟩

/-- System-program account (never read beyond its presence). -/
def wSys : AccountInfo := ⟨List.replicate 32 0, 1, [], false, false⟩

/-- A stored record that is already claimed: amount 5, digest `wHash`,
`is_claimed = 1`, receiver present. -/
def wEscDataClaimed : List Nat :=
  List.replicate 32 0 ++ u64ToLe 5 ++ wHash ++ [1] ++ [1] ++ wKeyRecv ++ List.replicate 32 2

/-- Escrow account holding the claimed record. -/
def wEscClaimed : AccountInfo := ⟨List.replicate 32 3, 100, wEscDataClaimed, false, true⟩

/-- The escrow record stored at account index `i` after a call that
returned `ok`. -/
def storedRecordAfter (i : Nat) (o : Outcome) : Option EscrowAccount :=
  match o with
  | .ok accs => (EscrowAccount.unpack (accs.getD i ⟨[], 0, [], false, false⟩).data).toOption
  | _ => none

/-- C3 counterexample: a second Initialize on an escrow whose record is
already claimed (`is_claimed = true`, digest `wHash`) resets
`is_claimed` to `false` and replaces the committed digest with the newly
supplied `wHashB`. -/
theorem initialize_resets_record_cx :
    (EscrowAccount.unpack wEscDataClaimed).map (fun r => r.is_claimed) = .ok true ∧
    (storedRecordAfter 1 (initialize_escrow wExt []
        [wInit, wEscClaimed, wSys] (initPayload [115] wHashB 7))).map
      (fun r => (r.is_claimed, r.hash)) = some (false, wHashB) ∧
    wHashB ≠ wHash := by
  refine ⟨by decide, by decide, by decide⟩

theorem initialize_topup_overwrites_witness :
    initialize_escrow wExt [] [wInit, wEscClaimed, wSys] (initPayload [115] wHashB 7) =
      .ok [{ wInit with lamports := 999993 },
        { wEscClaimed with
            lamports := 107,
            data := packBytes ⟨seedPad [115], 7, wHashB, false, none, wInit.key⟩
              ++ wEscClaimed.data.drop 170 }, wSys] ∧
    EscrowAccount.unpack (packBytes ⟨seedPad [115], 7, wHashB, false, none, wInit.key⟩
        ++ wEscClaimed.data.drop 170) =
      .ok ⟨seedPad [115], 7, wHashB, false, none, wInit.key⟩ :=
  initialize_topup_overwrites wExt [] wInit wEscClaimed wSys [] [115] wHashB 7
    (by decide) (by decide) rfl (by decide) (by decide) (by decide) (by decide) (by decide)

/-- C5: encoding any well-formed escrow record into a buffer of at least
170 bytes and decoding the result returns the record unchanged, for both
states of the optional receiver. -/
theorem escrow_record_roundtrip
    (e : EscrowAccount) (dst : List Nat)
    (hs : e.seeds.length = 32) (hh : e.hash.length = 64)
    (hr : ∀ r, e.receiver = some r → r.length = 32)
    (hi : e.initializer.length = 32)
    (hamt : e.amount_lamports < 2^64)
    (hd : 170 ≤ dst.length) :
    (EscrowAccount.pack e dst).bind EscrowAccount.unpack = .ok e := by
  rw [pack_eq_packBytes e dst hs hh hr hi hd]
  exact unpack_packBytes e (dst.drop 170) hs hh hr hi hamt

/-- Record with the receiver present. -/
def wRecSome : EscrowAccount :=
  ⟨List.replicate 32 7, 123456789, wHash, true, some wKeyRecv, List.replicate 32 2⟩

/-- Record with the receiver absent. -/
def wRecNone : EscrowAccount :=
  ⟨List.replicate 32 7, 0, wHashB, false, none, List.replicate 32 2⟩

/-- A 180-byte destination buffer. -/
def wBuf : List Nat := List.replicate 180 255

theorem escrow_record_roundtrip_witness :
    (EscrowAccount.pack wRecSome wBuf).bind EscrowAccount.unpack = .ok wRecSome ∧
    (EscrowAccount.pack wRecNone wBuf).bind EscrowAccount.unpack = .ok wRecNone :=
  ⟨escrow_record_roundtrip wRecSome wBuf (by decide) (by decide)
      (by intro r hr; simp [wRecSome] at hr; subst hr; decide)
      (by decide) (by decide) (by decide),
   escrow_record_roundtrip wRecNone wBuf (by decide) (by decide)
      (by intro r hr; simp [wRecNone] at hr)
      (by decide) (by decide) (by decide)⟩

/-- C9: dispatch reads a single-byte opcode: empty data fails with
`InvalidInstructionData`; opcode 0 routes to Initialize, 1 to Claim,
2 to VerifyAndRelease; every other opcode fails with
`InvalidInstructionData`. -/
theorem instruction_dispatch (ext : Externals) (pid : List Nat)
    (accounts : List AccountInfo) :
    process_instruction ext pid accounts [] = .err .InvalidInstructionData accounts ∧
    (∀ rest, process_instruction ext pid accounts (0 :: rest) =
      initialize_escrow ext pid accounts rest) ∧
    (∀ rest, process_instruction ext pid accounts (1 :: rest) =
      claim_escrow ext pid accounts rest) ∧
    (∀ rest, process_instruction ext pid accounts (2 :: rest) =
      handle_claim_callback ext pid accounts rest) ∧
    (∀ b rest, b ≠ 0 → b ≠ 1 → b ≠ 2 →
      process_instruction ext pid accounts (b :: rest) =
        .err .InvalidInstructionData accounts) := by
  refine ⟨rfl, fun rest => rfl, fun rest => rfl, fun rest => rfl, ?_⟩
  intro b rest h0 h1 h2
  show (if b = 0 then initialize_escrow ext pid accounts rest
    else if b = 1 then claim_escrow ext pid accounts rest
    else if b = 2 then handle_claim_callback ext pid accounts rest
    else .err .InvalidInstructionData accounts) = .err .InvalidInstructionData accounts
  rw [if_neg h0, if_neg h1, if_neg h2]

theorem instruction_dispatch_witness :
    process_instruction wExt [] [] [] = .err .InvalidInstructionData [] ∧
    process_instruction wExt [] [] [9] = .err .InvalidInstructionData [] :=
  ⟨(instruction_dispatch wExt [] []).1,
   (instruction_dispatch wExt [] []).2.2.2.2 9 [] (by decide) (by decide) (by decide)⟩

/-- Frame property of the account-handling part of Claim: an `ok` result
never touches the escrow account at position 2. -/
theorem claimBody_ok_frame
    (ext : Externals) (pid : List Nat) (accounts : List AccountInfo)
    (eid sd : List Nat) (ex : Nat) (accounts' : List AccountInfo) (d0 : AccountInfo)
    (h : claimBody ext pid accounts eid sd ex = .ok accounts') :
    accounts'.getD 2 d0 = accounts.getD 2 d0 := by
  unfold claimBody at h
  try dsimp only at h
  repeat' split at h
  all_goals first
    | exact Outcome.noConfusion h
    | (injection h with h; subst h; rfl)

/-- C4: any Claim call that returns `ok` leaves the escrow account
(position 2 of the account list) completely untouched: same address,
same lamport balance, same record bytes.  Claim only writes the payer,
the requester tracker, and submits the oracle request. -/
theorem claim_preserves_escrow_account
    (ext : Externals) (pid : List Nat) (accounts : List AccountInfo)
    (data : List Nat) (accounts' : List AccountInfo) (d0 : AccountInfo)
    (h : claim_escrow ext pid accounts data = .ok accounts') :
    accounts'.getD 2 d0 = accounts.getD 2 d0 := by
  unfold claim_escrow at h
  try dsimp only at h
  by_cases c1 : data.length < 35
  · rw [if_pos c1] at h; exact Outcome.noConfusion h
  rw [if_neg c1] at h
  by_cases c2 : ¬ utf8Valid (List.take 16 data) = true
  · rw [if_pos c2] at h; exact Outcome.noConfusion h
  rw [if_neg c2] at h
  by_cases c3 : data.length < 34 + data.getD 33 0 + 2
  · rw [if_pos c3] at h; exact Outcome.noConfusion h
  rw [if_neg c3] at h
  by_cases c4 : data.length < 36 + data.getD 33 0 +
      u16FromLe (listSlice data (34 + data.getD 33 0) (36 + data.getD 33 0))
  · rw [if_pos c4] at h; exact Outcome.noConfusion h
  rw [if_neg c4] at h
  by_cases c5 : ¬ utf8Valid (listSlice data (36 + data.getD 33 0)
      (36 + data.getD 33 0 +
        u16FromLe (listSlice data (34 + data.getD 33 0) (36 + data.getD 33 0)))) = true
  · rw [if_pos c5] at h; exact Outcome.noConfusion h
  rw [if_neg c5] at h
  exact claimBody_ok_frame ext pid accounts _ _ _ accounts' d0 h

/-- Claimant/payer account. -/
def wPayer : AccountInfo := ⟨List.replicate 32 6, 1000000000, [], true, false⟩

/-- Requester account whose address matches the derived tracker PDA. -/
def wReqPda : AccountInfo := ⟨List.replicate 32 3, 1, List.replicate 32 9, false, false⟩

/-- Requester account whose address does not match the derived PDA. -/
def wReqBad : AccountInfo := ⟨List.replicate 32 13, 1, List.replicate 32 9, false, false⟩

/-- Execution account. -/
def wExecA : AccountInfo := ⟨List.replicate 32 8, 0, [], false, false⟩

/-- Bonsol program account. -/
def wBons : AccountInfo := ⟨List.replicate 32 10, 1, [], false, false⟩

/-- Image-id account. -/
def wImg : AccountInfo := ⟨List.replicate 32 11, 1, [], false, false⟩

/-- Program-id account. -/
def wPidA : AccountInfo := ⟨List.replicate 32 12, 1, [], false, false⟩

/-- Nine accounts for a Claim call, requester matching the derivation. -/
def wClaimAccounts : List AccountInfo :=
  [wPayer, wRecv, wEsc, wReqPda, wExecA, wSys, wBons, wImg, wPidA]

/-- Same accounts but with the mismatching requester. -/
def wClaimAccountsBad : List AccountInfo :=
  [wPayer, wRecv, wEsc, wReqBad, wExecA, wSys, wBons, wImg, wPidA]

/-- The account state after the successful Claim: only the requester's
data changed (it now records the execution account address). -/
def wClaimOut : List AccountInfo :=
  [wPayer, wRecv, wEsc, { wReqPda with data := List.replicate 32 8 },
    wExecA, wSys, wBons, wImg, wPidA]

/-- Claim payload with bump byte 0. -/
def wClaimData : List Nat := claimPayload (List.replicate 16 97) 0 0 0 [115] [97]

/-- Claim payload identical except for bump byte 7 (the derived bump for
these externals is 200). -/
def wClaimData7 : List Nat := claimPayload (List.replicate 16 97) 7 0 0 [115] [97]

theorem claim_preserves_escrow_account_witness :
    wClaimOut.getD 2 wA0 = wClaimAccounts.getD 2 wA0 :=
  claim_preserves_escrow_account wExt [] wClaimAccounts wClaimData wClaimOut wA0 (by decide)

/-- C7 (amended): Claim validates the tracker location by comparing the
supplied requester account address with the address derived from the
execution identifier — a mismatch fails with `InvalidSeeds` — and the
payload bump byte is never compared with anything: the result of the
call is identical for any two bump bytes. -/
theorem claim_checks_requester_address_not_bump
    (ext : Externals) (pid : List Nat) (execId : List Nat)
    (bump bump' tip expiry : Nat) (seed preimage : List Nat)
    (payer recv esc req execA sys bons img pidA : AccountInfo)
    (rest : List AccountInfo) (escRec : EscrowAccount)
    (he : execId.length = 16) (hev : utf8Valid execId = true)
    (hp : preimage.length < 2^16) (hpv : utf8Valid preimage = true)
    (hex : expiry < 2^64)
    (hsig : payer.is_signer = true)
    (hkey : esc.key = (ext.findPda pid seed).1)
    (hun : EscrowAccount.unpack esc.data = .ok escRec)
    (hcl : escRec.is_claimed = false)
    (hreq : req.key ≠ (ext.findPda pid execId).1) :
    claim_escrow ext pid
        (payer :: recv :: esc :: req :: execA :: sys :: bons :: img :: pidA :: rest)
        (claimPayload execId bump tip expiry seed preimage) =
      .err .InvalidSeeds
        (payer :: recv :: esc :: req :: execA :: sys :: bons :: img :: pidA :: rest) ∧
    claim_escrow ext pid
        (payer :: recv :: esc :: req :: execA :: sys :: bons :: img :: pidA :: rest)
        (claimPayload execId bump tip expiry seed preimage) =
      claim_escrow ext pid
        (payer :: recv :: esc :: req :: execA :: sys :: bons :: img :: pidA :: rest)
        (claimPayload execId bump' tip expiry seed preimage) := by
  constructor
  · rw [claim_parse _ _ _ _ _ _ _ _ _ he hev hp hpv hex]
    unfold claimBody
    try dsimp only
    rw [if_neg (by simp [hsig]), if_neg (by simp [hkey]), hun]
    try dsimp only
    rw [if_neg (by simp [hcl]), if_pos hreq]
  · rw [claim_parse _ _ _ _ _ _ _ _ _ he hev hp hpv hex,
      claim_parse _ _ _ _ _ _ _ _ _ he hev hp hpv hex]

/-- C7 counterexample: a Claim whose payload bump byte (7) differs from
the derived bump (200) still succeeds — the bump is never checked; only
the requester account address is. -/
theorem claim_ignores_bump_cx :
    (wClaimData7.getD 16 0 = 7 ∧ (wExt.findPda [] (List.replicate 16 97)).2 = 200 ∧
      (7 : Nat) ≠ 200) ∧
    claim_escrow wExt [] wClaimAccounts wClaimData7 = .ok wClaimOut := by
  refine ⟨⟨by decide, by decide, by decide⟩, by decide⟩

theorem claim_checks_requester_address_not_bump_witness :
    claim_escrow wExt [] wClaimAccountsBad wClaimData =
      .err .InvalidSeeds wClaimAccountsBad ∧
    claim_escrow wExt [] wClaimAccountsBad wClaimData =
      claim_escrow wExt [] wClaimAccountsBad wClaimData7 :=
  claim_checks_requester_address_not_bump wExt [] (List.replicate 16 97) 0 7 0 0 [115] [97]
    wPayer wRecv wEsc wReqBad wExecA wSys wBons wImg wPidA [] wEscRec
    (by decide) (by decide) (by decide) (by decide) (by decide) rfl (by decide)
    (by decide) rfl (by decide)

/-- Claim payload whose preimage is the single byte `0xFF`, which is not
valid UTF-8. -/
def wBadClaimData : List Nat := claimPayload (List.replicate 16 97) 0 0 0 [115] [255]

/-- C8: the program can panic instead of returning an error code — a
Claim instruction whose preimage bytes are not valid UTF-8 hits
`std::str::from_utf8(..).unwrap()` and aborts.  This contradicts the
stated propagation policy (callers observe only a failed call plus an
error code). -/
theorem claim_invalid_preimage_panics :
    process_instruction wExt [] [] ((1 : Nat) :: wBadClaimData) = .panicked := by
  decide
